import Mathlib

/-!
# Verification of the sunbeam cluster-status convergence-wait engine

Shallow embedding of the status-wait subsystem of
`src/sunbeam-python/sunbeam/core/juju.py` (class `JujuHelper`):
the desired-status evaluation inlined in `_wait_until_status_coroutine`,
the watch-task loop, and the `wait_until_desired_status` orchestration.
Parts of the repository that are referenced only by its unit tests
(`_SharedStatusUpdater.tick_status`, the status-message-aware evaluator
`_is_desired_status_achieved`) are modelled from the specification and
marked as such in their doc comments.
-/

namespace Sunbeam

/-- A juju `DetailedStatus`/`StatusInfo` value: a status string plus a
human-readable message (`info`). -/
structure StatusInfo where
  status : String
  info : String
deriving DecidableEq, Repr

/-- A juju `UnitStatus`: workload and agent status, either may be absent
(Python `None`, falsy). -/
structure UnitStatus where
  workload_status : Option StatusInfo
  agent_status : Option StatusInfo
deriving DecidableEq, Repr

/-- A juju `ApplicationStatus` as consumed by `_wait_until_status_coroutine`:
the unit dictionary (name, unit status), the `subordinate_to` list (non-empty
iff the application is a subordinate), the application-level status (may be
`None`), and `int_`, the expected unit count (`None` on machine models). -/
structure ApplicationStatus where
  units : List (String × UnitStatus)
  subordinate_to : List String
  status : Option StatusInfo
  int_ : Option Nat
deriving DecidableEq, Repr

/-- A juju `FullStatus` restricted to what the wait engine reads: the
application dictionary. -/
structure FullStatus where
  applications : List (String × ApplicationStatus)
deriving DecidableEq, Repr

/-- The units of `application` selected by the watch: all units when
`unit_list` is `none`, else the units whose name is in `unit_list`
(`if unit_list is None or name in unit_list` in the source). -/
def selectedUnits (application : ApplicationStatus)
    (unit_list : Option (List String)) : List (String × UnitStatus) :=
  application.units.filter fun nu =>
    match unit_list with
    | none => true
    | some l => l.contains nu.1

/-- The workload statuses collected into `app_status` by the source loop:
for each selected unit with a present (truthy) `workload_status`, its
status string. -/
def observedWorkloadStatuses (application : ApplicationStatus)
    (unit_list : Option (List String)) : List String :=
  (selectedUnits application unit_list).filterMap fun nu =>
    nu.2.workload_status.map (·.status)

/-- The agent statuses collected into `agent_status` by the source loop. -/
def observedAgentStatuses (application : ApplicationStatus)
    (unit_list : Option (List String)) : List String :=
  (selectedUnits application unit_list).filterMap fun nu =>
    nu.2.agent_status.map (·.status)

/-- `expected_unit_count` in the source: `application.int_` when no unit
list is given (may be `None`), else the length of the unit list. -/
def expectedUnitCount (application : ApplicationStatus)
    (unit_list : Option (List String)) : Option Nat :=
  match unit_list with
  | none => application.int_
  | some l => some l.length

/-- `unit_count` in the source: the number of units when no unit list is
given, else the number of unit names that are in the unit list. -/
def observedUnitCount (application : ApplicationStatus)
    (unit_list : Option (List String)) : Nat :=
  match unit_list with
  | none => application.units.length
  | some l => (application.units.filter fun nu => l.contains nu.1).length

/-- `unit_count_cond` in the source: the expected unit count is unknown
(`None`) or equals the observed unit count. -/
def unitCountCond (application : ApplicationStatus)
    (unit_list : Option (List String)) : Bool :=
  match expectedUnitCount application unit_list with
  | none => true
  | some n => n == observedUnitCount application unit_list

/-- The desired-status evaluation inlined in
`JujuHelper._wait_until_status_coroutine`
(src/sunbeam-python/sunbeam/core/juju.py): collect `app_status` (from the
application-level status for subordinates, else from the selected units'
workload statuses) and `agent_status`, then succeed iff the unit-count
condition holds, at least one workload status was collected, all collected
workload statuses are in `expected_status`, and, when
`expected_agent_status` is supplied, all collected agent statuses are in
it. -/
def waitStatusCheck (application : ApplicationStatus)
    (unit_list : Option (List String)) (expected_status : List String)
    (expected_agent_status : Option (List String)) : Bool :=
  let app_status : List String :=
    if !application.subordinate_to.isEmpty then
      match application.status with
      | some st => [st.status]
      | none => []
    else observedWorkloadStatuses application unit_list
  let agent_status : List String :=
    if !application.subordinate_to.isEmpty then []
    else observedAgentStatuses application unit_list
  unitCountCond application unit_list
    && !app_status.isEmpty
    && app_status.all (fun s => expected_status.contains s)
    && (match expected_agent_status with
        | none => true
        | some l => agent_status.all fun s => l.contains s)

/-- Status messages of the selected units: the `info` field of each
present workload status, when that message is itself present (non-empty,
Python truthiness). Used only by the spec-modelled evaluator below. -/
def observedStatusMessages (application : ApplicationStatus)
    (unit_list : Option (List String)) : List String :=
  (selectedUnits application unit_list).filterMap fun nu =>
    nu.2.workload_status.bind fun st =>
      if st.info == "" then none else some st.info

/-- Modelled from the spec: `JujuHelper._is_desired_status_achieved`, the
desired-status evaluator with the optional status-message constraint, is
referenced by `tests/unit/sunbeam/core/test_juju.py` but absent from
`src/sunbeam-python/sunbeam/core/juju.py`. Per spec section 4.3: a
subordinate application's single application-level workload status is the
sole signal, compared directly against `expected_status`; otherwise the
verdict is true iff the unit-count condition holds, at least one selected
unit reported a workload status, all observed workload statuses are within
`expected_status`, all observed agent statuses are within
`expected_agent_status` when supplied, and all observed status messages
are within `expected_status_message` when supplied. -/
def is_desired_status_achieved (application : ApplicationStatus)
    (unit_list : Option (List String)) (expected_status : List String)
    (expected_agent_status : Option (List String))
    (expected_status_message : Option (List String)) : Bool :=
  if !application.subordinate_to.isEmpty then
    match application.status with
    | some st => expected_status.contains st.status
    | none => false
  else
    unitCountCond application unit_list
      && !(observedWorkloadStatuses application unit_list).isEmpty
      && (observedWorkloadStatuses application unit_list).all
          (fun s => expected_status.contains s)
      && (match expected_agent_status with
          | none => true
          | some l => (observedAgentStatuses application unit_list).all
              fun s => l.contains s)
      && (match expected_status_message with
          | none => true
          | some l => (observedStatusMessages application unit_list).all
              fun s => l.contains s)

/-- Python substring containment (`a in b` for strings): the characters of
`a` occur contiguously inside the characters of `b`. -/
def pyIn (a b : String) : Bool := decide (a.data <:+: b.data)

/-- The unit subset computed per application by `wait_until_desired_status`:
`None if units is None else [unit for unit in units if app in unit]`. -/
def unitListFor (units : Option (List String)) (app : String) :
    Option (List String) :=
  units.map fun us => us.filter fun u => pyIn app u

/-- Terminal observation of one watch coroutine within the wait budget. -/
inductive TaskEnd where
  | satisfied
  | failed (msg : String)
  | running
deriving DecidableEq, Repr

/-- The loop body of `JujuHelper._wait_until_status_coroutine`, driven by
the finite sequence of status snapshots the task observes before the
overall deadline (`model.get_status([app])` once per iteration): a missing
application raises `ValueError` at once; a snapshot satisfying the
desired-status evaluation terminates the task; otherwise the loop sleeps
and polls again. An exhausted snapshot sequence means the task was still
running when the budget elapsed. -/
def watchTask (app : String) (unit_list : Option (List String))
    (expected_status : List String)
    (expected_agent_status : Option (List String)) :
    List FullStatus → TaskEnd
  | [] => .running
  | s :: rest =>
    match s.applications.lookup app with
    | none => .failed ("Application " ++ app ++ " not found in status")
    | some application =>
      if waitStatusCheck application unit_list expected_status
          expected_agent_status then .satisfied
      else watchTask app unit_list expected_status expected_agent_status rest

/-- State of a spawned task after the waiter's cleanup (`task.cancel()` on
every task in the `finally` block): a task still running is cancelled; a
completed task is unaffected. -/
inductive FinalTaskState where
  | satisfied
  | failed (msg : String)
  | cancelled
deriving DecidableEq, Repr

/-- Effect of the waiter's final `task.cancel()` on one task. -/
def cancelTask : TaskEnd → FinalTaskState
  | .satisfied => .satisfied
  | .failed m => .failed m
  | .running => .cancelled

/-- Outcome of a `wait_until_desired_status` call. -/
inductive WaitResult where
  | ok
  | invalidQueue (msg : String)
  | timeoutExc (msg : String)
  | jujuWaitExc (msg : String) (excs : List String)
deriving DecidableEq, Repr

/-- Observable effects of one `wait_until_desired_status` call: its
result, how many watch tasks were spawned, each task's state after
cleanup, the final result-queue contents and whether a `put_nowait` ever
found the queue full. -/
structure WaitReport where
  result : WaitResult
  spawned : Nat
  final : List (String × FinalTaskState)
  queueItems : List String
  queueOverflow : Bool
deriving DecidableEq, Repr

/-- `asyncio.Queue.put_nowait`: raises `QueueFull` (modelled as `none`)
iff the queue is bounded (`maxsize > 0`) and already holds `maxsize`
items. -/
def put_nowait (maxsize : Nat) (q : List String) (x : String) :
    Option (List String) :=
  if 0 < maxsize ∧ maxsize ≤ q.length then none else some (q ++ [x])

/-- Posting each satisfied application name in turn with `put_nowait`. -/
def putAll (maxsize : Nat) (q : List String) :
    List String → Option (List String)
  | [] => some q
  | x :: xs =>
    match put_nowait maxsize q x with
    | none => none
    | some q2 => putAll maxsize q2 xs

/-- Whether a task end is `running`. -/
def isRunningEnd : TaskEnd → Bool
  | .running => true
  | _ => false

/-- The exception message of a failed task end, `none` otherwise. -/
def failedMsg : TaskEnd → Option String
  | .failed m => some m
  | _ => none

/-- Per-application task ends for one wait call. -/
def taskEndsOf (apps : List String) (units : Option (List String))
    (wl_status : List String) (agent_status : Option (List String))
    (snaps : String → List FullStatus) : List (String × TaskEnd) :=
  apps.map fun app =>
    (app, watchTask app (unitListFor units app) wl_status agent_status
      (snaps app))

/-- Applications whose task completed satisfied (these are the ones that
executed `queue.put_nowait(app)`). -/
def satisfiedOf (ends : List (String × TaskEnd)) : List String :=
  ends.filterMap fun e =>
    match e.2 with
    | .satisfied => some e.1
    | _ => none

/-- Exceptions collected from done, non-cancelled tasks in the waiter's
`finally` block. -/
def excsOf (ends : List (String × TaskEnd)) : List String :=
  ends.filterMap fun e => failedMsg e.2

/-- Whether some task was still running when the overall budget elapsed
(so `asyncio.wait_for` around the gather raised `TimeoutError`). -/
def anyRunning (ends : List (String × TaskEnd)) : Bool :=
  ends.any fun e => isRunningEnd e.2

/-- Message of the `TimeoutException` raised on overall timeout
(`f"Timed out while waiting for model {model!r} to be ready"`). -/
def timeoutMsg (model : String) : String :=
  "Timed out while waiting for model '" ++ model ++ "' to be ready"

/-- Message of the aggregate `JujuWaitException`
(`f"Error while waiting for model {model!r} to be ready"`). -/
def jujuWaitMsg (model : String) : String :=
  "Error while waiting for model '" ++ model ++ "' to be ready"

/-- The waiter's result once the overall wait resolved: `TimeoutException`
when some task was still running at the deadline (tasks still get
cancelled, and any collected exceptions are discarded because the raise in
the `except` clause propagates past the `finally` block); otherwise the
aggregate `JujuWaitException` when some task raised; otherwise success. -/
def waitOutcomeOf (model : String) (ends : List (String × TaskEnd)) :
    WaitResult :=
  if anyRunning ends then .timeoutExc (timeoutMsg model)
  else if (excsOf ends).isEmpty then .ok
  else .jujuWaitExc (jujuWaitMsg model) (excsOf ends)

/-- All task states after the waiter's `finally` block cancelled every
task. -/
def finalOf (ends : List (String × TaskEnd)) :
    List (String × FinalTaskState) :=
  ends.map fun e => (e.1, cancelTask e.2)

/-- Result-queue contents produced by the satisfied tasks' `put_nowait`
calls (`none` = a `QueueFull` occurred; `some []` when no queue was
supplied). -/
def queuePut (queueMaxsize : Option Nat) (ends : List (String × TaskEnd)) :
    Option (List String) :=
  match queueMaxsize with
  | none => some []
  | some m => putAll m [] (satisfiedOf ends)

/-- The argument-validation guard run before anything else:
`queue is not None and queue.maxsize < len(apps)`. -/
def queueGuard (queueMaxsize : Option Nat) (apps : List String) : Bool :=
  match queueMaxsize with
  | some m => decide (m < apps.length)
  | none => false

/-- `JujuHelper.wait_until_desired_status`
(src/sunbeam-python/sunbeam/core/juju.py): validate the queue size before
anything else, spawn one watch task per application, gather them under one
overall timeout, cancel every task in the `finally` block, then raise
`TimeoutException` on timeout, an aggregate `JujuWaitException` when some
task failed, else return normally. The asynchronous execution is abstracted
by `snaps`, the finite snapshot sequence each task observes within the
budget; `queueMaxsize = none` means no result queue was supplied. -/
def wait_until_desired_status (model : String) (apps : List String)
    (units : Option (List String)) (status : Option (List String))
    (agent_status : Option (List String)) (queueMaxsize : Option Nat)
    (snaps : String → List FullStatus) : WaitReport :=
  if queueGuard queueMaxsize apps then
    { result := .invalidQueue
        "Queue size should be at least the number of applications"
      spawned := 0, final := [], queueItems := [], queueOverflow := false }
  else
    { result := waitOutcomeOf model
        (taskEndsOf apps units (status.getD ["active"]) agent_status snaps)
      spawned := apps.length
      final := finalOf
        (taskEndsOf apps units (status.getD ["active"]) agent_status snaps)
      queueItems := (queuePut queueMaxsize
        (taskEndsOf apps units (status.getD ["active"]) agent_status
          snaps)).getD []
      queueOverflow := (queuePut queueMaxsize
        (taskEndsOf apps units (status.getD ["active"]) agent_status
          snaps)).isNone }

/-- Outcome of one underlying status-fetch attempt. -/
inductive FetchAttempt where
  | ok (s : FullStatus)
  | connectionClosed (msg : String)
deriving DecidableEq, Repr

/-- Modelled from the spec: `_SharedStatusUpdater.tick_status` is
referenced by `tests/unit/sunbeam/core/test_juju.py` but absent from
`src/sunbeam-python/sunbeam/core/juju.py`. Per spec section 4.2, a
connection-closed error during a fetch is retryable: the updater loops
back to the liveness check instead of propagating the error to the
consumer, and only a successful fetch yields a snapshot. Given the
outcomes of the successive fetch attempts, this returns the first snapshot
delivered to the consumer together with the total number of fetch attempts
made to produce it; `none` means the attempt budget was exhausted (a
higher-level timeout) before any snapshot could be delivered. -/
def tick_status_first : List FetchAttempt → Option (FullStatus × Nat)
  | [] => none
  | .ok s :: _ => some (s, 1)
  | .connectionClosed _ :: rest =>
    (tick_status_first rest).map fun p => (p.1, p.2 + 1)

/-- Modelled from the spec: the `_SharedStatusUpdater` concurrency state,
absent from `src/sunbeam-python/sunbeam/core/juju.py` (only its tests
reference it). `waiting` consumers are blocked in `tick_status` on the
single condition variable, `fetching` says whether the one allowed status
fetch is in flight, `delivered` counts consumers already released with a
snapshot, and `fetches` counts fetch calls issued. -/
structure UpdaterState where
  waiting : Nat
  fetching : Bool
  delivered : Nat
  fetches : Nat
deriving DecidableEq, Repr

/-- Modelled from the spec: the Shared Status Updater's transitions (spec
sections 4.2 and 5). A fetch may start only when none is in flight (at
most one outstanding fetch per updater); when the fetch completes, the
condition variable broadcast releases every blocked consumer at once with
the fetched snapshot. -/
inductive UpdaterStep : UpdaterState → UpdaterState → Prop where
  | startFetch (w d f : Nat) :
      UpdaterStep ⟨w, false, d, f⟩ ⟨w, true, d, f + 1⟩
  | completeFetch (w d f : Nat) :
      UpdaterStep ⟨w, true, d, f⟩ ⟨0, false, d + w, f⟩

/-- Initial updater state: `n` consumers blocked, no fetch in flight,
nothing delivered, no fetch issued yet. -/
def initUpdater (n : Nat) : UpdaterState := ⟨n, false, 0, 0⟩

/-- Witness fixture for C4: application `c` has one active/idle unit. -/
def c4App : ApplicationStatus :=
  ⟨[("c/0", ⟨some ⟨"active", ""⟩, some ⟨"idle", ""⟩⟩)], [], none, some 1⟩

/-- Witness fixture for C4: `a` and `b` observe a snapshot without their
application; `c` observes one that satisfies it. -/
def c4Snaps : String → List FullStatus := fun app =>
  if app = "c" then [⟨[("c", c4App)]⟩] else [⟨[]⟩]

/-- Witness fixture for C10: a non-subordinate `nova` application with
one active unit, present in the snapshot. -/
def c10App : ApplicationStatus :=
  ⟨[("nova/0", ⟨some ⟨"active", ""⟩, some ⟨"idle", ""⟩⟩)], [], none,
    some 1⟩

section EvaluatorLemmas

lemma unitCountCond_eq_true_iff (application : ApplicationStatus)
    (unit_list : Option (List String)) :
    unitCountCond application unit_list = true ↔
      expectedUnitCount application unit_list = none ∨
      expectedUnitCount application unit_list =
        some (observedUnitCount application unit_list) := by
  cases h : expectedUnitCount application unit_list with
  | none => simp [unitCountCond, h]
  | some n => simp [unitCountCond, h]

lemma observedWorkload_nonempty_iff (application : ApplicationStatus)
    (unit_list : Option (List String)) :
    (!(observedWorkloadStatuses application unit_list).isEmpty) = true ↔
      ∃ u ∈ selectedUnits application unit_list,
        u.2.workload_status ≠ none := by
  simp only [Bool.not_eq_true', List.isEmpty_eq_false_iff_exists_mem,
    observedWorkloadStatuses, List.mem_filterMap, Option.map_eq_some']
  constructor
  · rintro ⟨x, u, hu, st, hst, -⟩
    exact ⟨u, hu, by simp [hst]⟩
  · rintro ⟨u, hu, hne⟩
    cases hst : u.2.workload_status with
    | none => exact absurd hst hne
    | some st => exact ⟨st.status, u, hu, st, hst, rfl⟩

lemma observedWorkload_all_iff (application : ApplicationStatus)
    (unit_list : Option (List String)) (ws : List String) :
    ((observedWorkloadStatuses application unit_list).all
        fun s => ws.contains s) = true ↔
      ∀ u ∈ selectedUnits application unit_list, ∀ st : StatusInfo,
        u.2.workload_status = some st → st.status ∈ ws := by
  simp only [List.all_eq_true, observedWorkloadStatuses, List.mem_filterMap,
    Option.map_eq_some', List.elem_iff]
  constructor
  · rintro h u hu st hst
    exact h _ ⟨u, hu, st, hst, rfl⟩
  · rintro h x ⟨u, hu, st, hst, rfl⟩
    exact h u hu st hst

lemma observedAgent_all_iff (application : ApplicationStatus)
    (unit_list : Option (List String)) (l : List String) :
    ((observedAgentStatuses application unit_list).all
        fun s => l.contains s) = true ↔
      ∀ u ∈ selectedUnits application unit_list, ∀ st : StatusInfo,
        u.2.agent_status = some st → st.status ∈ l := by
  simp only [List.all_eq_true, observedAgentStatuses, List.mem_filterMap,
    Option.map_eq_some', List.elem_iff]
  constructor
  · rintro h u hu st hst
    exact h _ ⟨u, hu, st, hst, rfl⟩
  · rintro h x ⟨u, hu, st, hst, rfl⟩
    exact h u hu st hst

lemma observedMessages_all_iff (application : ApplicationStatus)
    (unit_list : Option (List String)) (l : List String) :
    ((observedStatusMessages application unit_list).all
        fun s => l.contains s) = true ↔
      ∀ u ∈ selectedUnits application unit_list, ∀ st : StatusInfo,
        u.2.workload_status = some st → st.info ≠ "" → st.info ∈ l := by
  simp only [List.all_eq_true, observedStatusMessages, List.mem_filterMap,
    Option.bind_eq_some, List.elem_iff]
  constructor
  · rintro h u hu st hst hinfo
    refine h _ ⟨u, hu, st, hst, ?_⟩
    simp [hinfo]
  · rintro h x ⟨u, hu, st, hst, hx⟩
    by_cases hinfo : st.info = "" <;> simp [hinfo] at hx
    exact hx ▸ h u hu st hst hinfo

lemma waitStatusCheck_eq_evaluator_no_message
    (application : ApplicationStatus) (unit_list : Option (List String))
    (expected_status : List String)
    (expected_agent_status : Option (List String))
    (hsub : application.subordinate_to = []) :
    waitStatusCheck application unit_list expected_status
        expected_agent_status =
      is_desired_status_achieved application unit_list expected_status
        expected_agent_status none := by
  unfold waitStatusCheck is_desired_status_achieved
  simp [hsub]

end EvaluatorLemmas

/-- C1: For every status snapshot of a (non-subordinate) watched
application, optional unit subset, expected workload-status set, optional
expected agent-status set and optional expected status-message set, the
desired-status evaluation returns true iff (a) the observed unit count
equals the expected unit count or the expected count is unknown, (b) at
least one selected unit reported a workload status and every observed
workload status is in the expected workload-status set, (c) when an
agent-status constraint is supplied every observed agent status is in it,
and (d) when a status-message constraint is supplied every observed
(present) status message is in it. -/
theorem C1_desired_status_verdict_iff (application : ApplicationStatus)
    (unit_list : Option (List String)) (expected_status : List String)
    (expected_agent_status : Option (List String))
    (expected_status_message : Option (List String))
    (hsub : application.subordinate_to = []) :
    is_desired_status_achieved application unit_list expected_status
        expected_agent_status expected_status_message = true ↔
      (expectedUnitCount application unit_list = none ∨
        expectedUnitCount application unit_list =
          some (observedUnitCount application unit_list)) ∧
      ((∃ u ∈ selectedUnits application unit_list,
          u.2.workload_status ≠ none) ∧
        ∀ u ∈ selectedUnits application unit_list, ∀ st : StatusInfo,
          u.2.workload_status = some st → st.status ∈ expected_status) ∧
      (∀ l, expected_agent_status = some l →
        ∀ u ∈ selectedUnits application unit_list, ∀ st : StatusInfo,
          u.2.agent_status = some st → st.status ∈ l) ∧
      (∀ l, expected_status_message = some l →
        ∀ u ∈ selectedUnits application unit_list, ∀ st : StatusInfo,
          u.2.workload_status = some st → st.info ≠ "" → st.info ∈ l) := by
  unfold is_desired_status_achieved
  simp only [hsub, List.isEmpty_nil, Bool.not_true, Bool.false_eq_true,
    if_false, Bool.and_eq_true]
  rw [unitCountCond_eq_true_iff, observedWorkload_nonempty_iff,
    observedWorkload_all_iff]
  constructor
  · rintro ⟨⟨⟨⟨hc, hne⟩, hall⟩, hag⟩, hmsg⟩
    refine ⟨hc, ⟨hne, hall⟩, ?_, ?_⟩
    · rintro l rfl
      exact (observedAgent_all_iff application unit_list l).mp hag
    · rintro l rfl
      exact (observedMessages_all_iff application unit_list l).mp hmsg
  · rintro ⟨hc, ⟨hne, hall⟩, hag, hmsg⟩
    refine ⟨⟨⟨⟨hc, hne⟩, hall⟩, ?_⟩, ?_⟩
    · cases expected_agent_status with
      | none => rfl
      | some l =>
          exact (observedAgent_all_iff application unit_list l).mpr (hag l rfl)
    · cases expected_status_message with
      | none => rfl
      | some l =>
          exact (observedMessages_all_iff application unit_list l).mpr
            (hmsg l rfl)

/-- Concrete instance of C1: one `k8s/0` unit, workload `active`, agent
`idle`, expected count 1. -/
theorem C1_desired_status_verdict_iff_witness :
    is_desired_status_achieved
      ⟨[("k8s/0", ⟨some ⟨"active", ""⟩, some ⟨"idle", ""⟩⟩)], [],
        some ⟨"active", ""⟩, some 1⟩
      none ["active"] (some ["idle"]) none = true :=
  (C1_desired_status_verdict_iff
      ⟨[("k8s/0", ⟨some ⟨"active", ""⟩, some ⟨"idle", ""⟩⟩)], [],
        some ⟨"active", ""⟩, some 1⟩
      none ["active"] (some ["idle"]) none rfl).mpr
    (by
      refine ⟨by decide, ⟨?_, ?_⟩, ?_, ?_⟩
      · exact ⟨("k8s/0", ⟨some ⟨"active", ""⟩, some ⟨"idle", ""⟩⟩),
          by decide, by decide⟩
      · rintro u hu st hst
        simp only [selectedUnits, List.filter, List.mem_singleton] at hu
        subst hu
        simp only [Option.some.injEq] at hst
        simp [← hst]
      · rintro l hl u hu st hst
        simp only [Option.some.injEq] at hl
        subst hl
        simp only [selectedUnits, List.filter, List.mem_singleton] at hu
        subst hu
        simp only [Option.some.injEq] at hst
        simp [← hst]
      · rintro l hl
        exact Option.noConfusion hl)

/-- C2 counterexample: a subordinate application (subordinate to `app0`,
no units) whose application-level workload status `active` is in the
expected set, but whose expected unit count (`int_ = 2`) differs from its
(zero) unit count. The claim says the evaluation ignores the unit-count
check entirely and therefore returns true here; the source evaluation
returns false because `unit_count_cond` fails. -/
theorem C2_subordinate_counterexample :
    (⟨[], ["app0"], some ⟨"active", ""⟩, some 2⟩
        : ApplicationStatus).subordinate_to ≠ [] ∧
    "active" ∈ ["active"] ∧
    waitStatusCheck (⟨[], ["app0"], some ⟨"active", ""⟩, some 2⟩
        : ApplicationStatus) none ["active"] none = false := by
  decide

/-- C2 amended: for a subordinate application the desired-status
evaluation takes the single application-level workload status as the only
status signal and the agent-status check is vacuous (no agent statuses are
collected), but the unit-count check still applies: the verdict is true
iff the expected unit count is unknown or equals the observed (zero for a
subordinate's empty unit map) unit count, and the application-level status
is present and in the expected workload-status set. -/
theorem C2_subordinate_eval (application : ApplicationStatus)
    (unit_list : Option (List String)) (expected_status : List String)
    (expected_agent_status : Option (List String))
    (hsub : application.subordinate_to ≠ []) :
    waitStatusCheck application unit_list expected_status
        expected_agent_status = true ↔
      (expectedUnitCount application unit_list = none ∨
        expectedUnitCount application unit_list =
          some (observedUnitCount application unit_list)) ∧
      ∃ st : StatusInfo, application.status = some st ∧
        st.status ∈ expected_status := by
  have hne : application.subordinate_to.isEmpty = false := by
    cases h : application.subordinate_to.isEmpty with
    | false => rfl
    | true => exact absurd (List.isEmpty_iff.mp h) hsub
  unfold waitStatusCheck
  simp only [hne, Bool.not_false, if_true, Bool.and_eq_true]
  rw [unitCountCond_eq_true_iff]
  cases hst : application.status with
  | none =>
    simp [hst]
  | some st =>
    cases expected_agent_status with
    | none =>
      simp [hst, and_assoc]
    | some l =>
      simp [hst, and_assoc]

/-- Concrete instance of the amended C2: a subordinate with unknown
expected unit count and matching application-level status is accepted. -/
theorem C2_subordinate_eval_witness :
    waitStatusCheck (⟨[], ["app0"], some ⟨"active", ""⟩, none⟩
        : ApplicationStatus) none ["active"] none = true :=
  (C2_subordinate_eval
      (⟨[], ["app0"], some ⟨"active", ""⟩, none⟩ : ApplicationStatus)
      none ["active"] none (by decide)).mpr
    ⟨Or.inl rfl, ⟨"active", ""⟩, rfl, by decide⟩

section WaiterLemmas

lemma isRunningEnd_eq_true {t : TaskEnd} :
    isRunningEnd t = true ↔ t = .running := by
  cases t <;> simp [isRunningEnd]

lemma failedMsg_eq_some {t : TaskEnd} {m : String} :
    failedMsg t = some m ↔ t = .failed m := by
  cases t <;> simp [failedMsg]

lemma wait_result_of_guard_false (model : String) (apps : List String)
    (units status agent_status : Option (List String)) (qm : Option Nat)
    (snaps : String → List FullStatus)
    (hq : queueGuard qm apps = false) :
    wait_until_desired_status model apps units status agent_status qm
        snaps =
      { result := waitOutcomeOf model
          (taskEndsOf apps units (status.getD ["active"]) agent_status
            snaps)
        spawned := apps.length
        final := finalOf
          (taskEndsOf apps units (status.getD ["active"]) agent_status
            snaps)
        queueItems := (queuePut qm
          (taskEndsOf apps units (status.getD ["active"]) agent_status
            snaps)).getD []
        queueOverflow := (queuePut qm
          (taskEndsOf apps units (status.getD ["active"]) agent_status
            snaps)).isNone } := by
  simp [wait_until_desired_status, hq]

lemma anyRunning_taskEndsOf_iff (apps : List String)
    (units : Option (List String)) (wl_status : List String)
    (agent_status : Option (List String))
    (snaps : String → List FullStatus) :
    anyRunning (taskEndsOf apps units wl_status agent_status snaps) =
        true ↔
      ∃ app ∈ apps,
        watchTask app (unitListFor units app) wl_status agent_status
          (snaps app) = .running := by
  simp only [anyRunning, taskEndsOf, List.any_eq_true, List.mem_map,
    isRunningEnd_eq_true]
  constructor
  · rintro ⟨e, ⟨app, happ, rfl⟩, hr⟩
    exact ⟨app, happ, hr⟩
  · rintro ⟨app, happ, hr⟩
    exact ⟨(app, _), ⟨app, happ, rfl⟩, hr⟩

lemma excsOf_taskEndsOf (apps : List String)
    (units : Option (List String)) (wl_status : List String)
    (agent_status : Option (List String))
    (snaps : String → List FullStatus) :
    excsOf (taskEndsOf apps units wl_status agent_status snaps) =
      apps.filterMap fun app =>
        failedMsg (watchTask app (unitListFor units app) wl_status
          agent_status (snaps app)) := by
  rw [excsOf, taskEndsOf, List.filterMap_map]
  rfl

lemma mem_finalOf_taskEndsOf (apps : List String)
    (units : Option (List String)) (wl_status : List String)
    (agent_status : Option (List String))
    (snaps : String → List FullStatus) (app : String) (happ : app ∈ apps) :
    (app, cancelTask (watchTask app (unitListFor units app) wl_status
        agent_status (snaps app))) ∈
      finalOf (taskEndsOf apps units wl_status agent_status snaps) := by
  simp only [finalOf, taskEndsOf, List.map_map, List.mem_map,
    Function.comp]
  exact ⟨app, happ, rfl⟩

lemma model_infix_timeoutMsg (model : String) :
    model.data <:+: (timeoutMsg model).data :=
  ⟨"Timed out while waiting for model '".data, "' to be ready".data, by
    simp [timeoutMsg, String.data_append]⟩

end WaiterLemmas

/-- C3: when the single overall timeout elapses while some watch task is
still running, the waiter raises a `TimeoutException` whose message names
the model, and every still-running task ends cancelled; conversely, when
every task finished within the one shared budget no timeout is raised —
the budget is one for the whole batch, not per application. -/
theorem C3_timeout_cancels_all_tasks (model : String) (apps : List String)
    (units status agent_status : Option (List String)) (qm : Option Nat)
    (snaps : String → List FullStatus)
    (hq : queueGuard qm apps = false) :
    ((∃ app ∈ apps,
        watchTask app (unitListFor units app) (status.getD ["active"])
          agent_status (snaps app) = .running) →
      (wait_until_desired_status model apps units status agent_status qm
          snaps).result = .timeoutExc (timeoutMsg model) ∧
      model.data <:+: (timeoutMsg model).data ∧
      ∀ app ∈ apps,
        watchTask app (unitListFor units app) (status.getD ["active"])
          agent_status (snaps app) = .running →
        (app, FinalTaskState.cancelled) ∈
          (wait_until_desired_status model apps units status agent_status
            qm snaps).final) ∧
    ((∀ app ∈ apps,
        watchTask app (unitListFor units app) (status.getD ["active"])
          agent_status (snaps app) ≠ .running) →
      ∀ msg, (wait_until_desired_status model apps units status
        agent_status qm snaps).result ≠ .timeoutExc msg) := by
  rw [wait_result_of_guard_false model apps units status agent_status qm
    snaps hq]
  constructor
  · intro hrun
    have hany : anyRunning (taskEndsOf apps units (status.getD ["active"])
        agent_status snaps) = true :=
      (anyRunning_taskEndsOf_iff apps units (status.getD ["active"])
        agent_status snaps).mpr hrun
    refine ⟨by simp [waitOutcomeOf, hany], model_infix_timeoutMsg model,
      ?_⟩
    intro app happ hr
    have := mem_finalOf_taskEndsOf apps units (status.getD ["active"])
      agent_status snaps app happ
    rwa [hr] at this
  · intro hdone msg
    have hany : anyRunning (taskEndsOf apps units (status.getD ["active"])
        agent_status snaps) = false := by
      cases h : anyRunning (taskEndsOf apps units (status.getD ["active"])
          agent_status snaps) with
      | false => rfl
      | true =>
        obtain ⟨app, happ, hr⟩ := (anyRunning_taskEndsOf_iff apps units
          (status.getD ["active"]) agent_status snaps).mp h
        exact absurd hr (hdone app happ)
    simp only [waitOutcomeOf, hany, Bool.false_eq_true, if_false]
    split <;> simp

/-- Concrete instance of C3: one application whose task observes no
snapshot within the budget; the wait times out and the task is
cancelled. -/
theorem C3_timeout_cancels_all_tasks_witness :
    (wait_until_desired_status "m1" ["app1"] none none none none
        fun _ => []).result =
      .timeoutExc (timeoutMsg "m1") ∧
    ("m1".data <:+: (timeoutMsg "m1").data) ∧
    ("app1", FinalTaskState.cancelled) ∈
      (wait_until_desired_status "m1" ["app1"] none none none none
        fun _ => []).final := by
  obtain ⟨h1, h2, h3⟩ :=
    (C3_timeout_cancels_all_tasks "m1" ["app1"] none none none none
      (fun _ => []) rfl).1
      ⟨"app1", by decide, rfl⟩
  exact ⟨h1, h2, h3 "app1" (by decide) rfl⟩

lemma wait_aggregate_result (model : String)
    (apps : List String) (units status agent_status : Option (List String))
    (qm : Option Nat) (snaps : String → List FullStatus)
    (hq : queueGuard qm apps = false)
    (hdone : ∀ app ∈ apps,
      watchTask app (unitListFor units app) (status.getD ["active"])
        agent_status (snaps app) ≠ .running)
    (hfail : ∃ app ∈ apps, ∃ m,
      watchTask app (unitListFor units app) (status.getD ["active"])
        agent_status (snaps app) = .failed m) :
    (wait_until_desired_status model apps units status agent_status qm
        snaps).result =
      .jujuWaitExc (jujuWaitMsg model)
        (apps.filterMap fun app =>
          failedMsg (watchTask app (unitListFor units app)
            (status.getD ["active"]) agent_status (snaps app))) ∧
    (∀ app ∈ apps, ∀ m,
      watchTask app (unitListFor units app) (status.getD ["active"])
          agent_status (snaps app) = .failed m →
      m ∈ apps.filterMap fun app2 =>
        failedMsg (watchTask app2 (unitListFor units app2)
          (status.getD ["active"]) agent_status (snaps app2))) ∧
    (∀ app ∈ apps,
      watchTask app (unitListFor units app) (status.getD ["active"])
          agent_status (snaps app) = .satisfied →
      failedMsg (watchTask app (unitListFor units app)
          (status.getD ["active"]) agent_status (snaps app)) = none ∧
      (app, FinalTaskState.satisfied) ∈
        (wait_until_desired_status model apps units status agent_status qm
          snaps).final) := by
  rw [wait_result_of_guard_false model apps units status agent_status qm
    snaps hq]
  have hany : anyRunning (taskEndsOf apps units (status.getD ["active"])
      agent_status snaps) = false := by
    cases h : anyRunning (taskEndsOf apps units (status.getD ["active"])
        agent_status snaps) with
    | false => rfl
    | true =>
      obtain ⟨app, happ, hr⟩ := (anyRunning_taskEndsOf_iff apps units
        (status.getD ["active"]) agent_status snaps).mp h
      exact absurd hr (hdone app happ)
  have hmem : ∀ app ∈ apps, ∀ m,
      watchTask app (unitListFor units app) (status.getD ["active"])
          agent_status (snaps app) = .failed m →
      m ∈ apps.filterMap fun app2 =>
        failedMsg (watchTask app2 (unitListFor units app2)
          (status.getD ["active"]) agent_status (snaps app2)) := by
    intro app happ m hm
    exact List.mem_filterMap.mpr ⟨app, happ, failedMsg_eq_some.mpr hm⟩
  have hexcs : excsOf (taskEndsOf apps units (status.getD ["active"])
      agent_status snaps) =
      apps.filterMap fun app =>
        failedMsg (watchTask app (unitListFor units app)
          (status.getD ["active"]) agent_status (snaps app)) :=
    excsOf_taskEndsOf apps units (status.getD ["active"]) agent_status
      snaps
  have hne : (excsOf (taskEndsOf apps units (status.getD ["active"])
      agent_status snaps)).isEmpty = false := by
    obtain ⟨app, happ, m, hm⟩ := hfail
    have : m ∈ excsOf (taskEndsOf apps units (status.getD ["active"])
        agent_status snaps) := by
      rw [hexcs]
      exact hmem app happ m hm
    cases h : excsOf (taskEndsOf apps units (status.getD ["active"])
        agent_status snaps) with
    | nil => rw [h] at this; exact absurd this (List.not_mem_nil m)
    | cons a l => simp [h]
  refine ⟨?_, hmem, ?_⟩
  · rw [hexcs] at hne
    simp only [waitOutcomeOf, hany, Bool.false_eq_true, if_false, hexcs,
      hne]
  · intro app happ hsat
    refine ⟨by simp [hsat, failedMsg], ?_⟩
    have := mem_finalOf_taskEndsOf apps units (status.getD ["active"])
      agent_status snaps app happ
    rwa [hsat] at this

/-- C4: when every task finished within the budget and at least one
failed, the waiter raises one aggregate `JujuWaitException` carrying
exactly the failed tasks' exceptions (in application order): no exception
is dropped, and a satisfied task contributes no error and survives the
cleanup as satisfied. -/
theorem C4_aggregate_exception_reporting (model : String)
    (apps : List String) (units status agent_status : Option (List String))
    (qm : Option Nat) (snaps : String → List FullStatus)
    (hq : queueGuard qm apps = false)
    (hdone : ∀ app ∈ apps,
      watchTask app (unitListFor units app) (status.getD ["active"])
        agent_status (snaps app) ≠ .running)
    (hfail : ∃ app ∈ apps, ∃ m,
      watchTask app (unitListFor units app) (status.getD ["active"])
        agent_status (snaps app) = .failed m) :
    (wait_until_desired_status model apps units status agent_status qm
        snaps).result =
      .jujuWaitExc (jujuWaitMsg model)
        (apps.filterMap fun app =>
          failedMsg (watchTask app (unitListFor units app)
            (status.getD ["active"]) agent_status (snaps app))) ∧
    (∀ app ∈ apps, ∀ m,
      watchTask app (unitListFor units app) (status.getD ["active"])
          agent_status (snaps app) = .failed m →
      m ∈ apps.filterMap fun app2 =>
        failedMsg (watchTask app2 (unitListFor units app2)
          (status.getD ["active"]) agent_status (snaps app2))) ∧
    (∀ app ∈ apps,
      watchTask app (unitListFor units app) (status.getD ["active"])
          agent_status (snaps app) = .satisfied →
      failedMsg (watchTask app (unitListFor units app)
          (status.getD ["active"]) agent_status (snaps app)) = none ∧
      (app, FinalTaskState.satisfied) ∈
        (wait_until_desired_status model apps units status agent_status qm
          snaps).final) :=
  wait_aggregate_result model apps units status agent_status qm snaps hq
    hdone hfail

/-- Concrete instance of C4: of three watched applications, `a` and `b`
fail with the unknown-application error and `c` is satisfied; the
aggregate exception carries exactly the two errors. -/
theorem C4_aggregate_exception_reporting_witness :
    (wait_until_desired_status "m1" ["a", "b", "c"] none none none none
        c4Snaps).result =
      .jujuWaitExc (jujuWaitMsg "m1")
        ["Application a not found in status",
          "Application b not found in status"] := by
  have h := (C4_aggregate_exception_reporting "m1" ["a", "b", "c"] none
    none none none c4Snaps rfl (by decide)
    ⟨"a", by decide, "Application a not found in status", by decide⟩).1
  rw [h]
  decide

/-- C5: when a fetched snapshot does not contain a requested application,
that application's watch task fails immediately with the `ValueError`
message (whatever later snapshots would have shown), and — once the other
tasks finish within the budget — the waiter surfaces it in the aggregate
`JujuWaitException`, not as a timeout. -/
theorem C5_missing_application_hard_failure (model : String)
    (apps : List String) (units status agent_status : Option (List String))
    (qm : Option Nat) (snaps : String → List FullStatus) (app : String)
    (s : FullStatus) (rest : List FullStatus)
    (hq : queueGuard qm apps = false)
    (happ : app ∈ apps)
    (hsnap : snaps app = s :: rest)
    (habsent : s.applications.lookup app = none)
    (hothers : ∀ b ∈ apps,
      watchTask b (unitListFor units b) (status.getD ["active"])
        agent_status (snaps b) ≠ .running) :
    watchTask app (unitListFor units app) (status.getD ["active"])
        agent_status (snaps app) =
      .failed ("Application " ++ app ++ " not found in status") ∧
    (∃ excs,
      (wait_until_desired_status model apps units status agent_status qm
          snaps).result = .jujuWaitExc (jujuWaitMsg model) excs ∧
      ("Application " ++ app ++ " not found in status") ∈ excs) ∧
    (∀ msg, (wait_until_desired_status model apps units status
      agent_status qm snaps).result ≠ .timeoutExc msg) := by
  have hfailed : watchTask app (unitListFor units app)
      (status.getD ["active"]) agent_status (snaps app) =
      .failed ("Application " ++ app ++ " not found in status") := by
    rw [hsnap, watchTask, habsent]
  obtain ⟨hres, hmem, -⟩ := wait_aggregate_result model apps
    units status agent_status qm snaps hq hothers
    ⟨app, happ, "Application " ++ app ++ " not found in status", hfailed⟩
  refine ⟨hfailed, ⟨_, hres, hmem app happ _ hfailed⟩, ?_⟩
  intro msg
  rw [hres]
  simp

/-- Concrete instance of C5: waiting for `mysql`, absent from the
snapshot; the waiter raises the aggregate unknown-entity failure, not a
timeout. -/
theorem C5_missing_application_hard_failure_witness :
    watchTask "mysql" none ["active"] none [⟨[]⟩] =
      .failed "Application mysql not found in status" ∧
    (∃ excs,
      (wait_until_desired_status "m1" ["mysql"] none none none none
          fun _ => [⟨[]⟩]).result = .jujuWaitExc (jujuWaitMsg "m1") excs ∧
      "Application mysql not found in status" ∈ excs) ∧
    ∀ msg, (wait_until_desired_status "m1" ["mysql"] none none none none
      fun _ => [⟨[]⟩]).result ≠ .timeoutExc msg := by
  exact C5_missing_application_hard_failure "m1" ["mysql"] none none none
    none (fun _ => [⟨[]⟩]) "mysql" ⟨[]⟩ [] rfl (by decide) rfl rfl
    (by decide)

lemma putAll_ne_none (m : Nat) (q xs : List String)
    (h : q.length + xs.length ≤ m) : putAll m q xs ≠ none := by
  induction xs generalizing q with
  | nil => simp [putAll]
  | cons x xs ih =>
    simp only [putAll, put_nowait]
    rw [if_neg (by simp at h; omega)]
    exact ih (q ++ [x]) (by simp at h ⊢; omega)

/-- C6: a result queue whose capacity (`maxsize`) is smaller than the
number of applications makes the call fail with the argument-validation
error before any watch task is spawned and before any status fetch (the
outcome is identical for any two snapshot sources); conversely, with
capacity at least the number of applications the satisfied tasks'
non-blocking `put_nowait` deliveries can never hit a full queue. -/
theorem C6_queue_capacity_precondition (model : String)
    (apps : List String) (units status agent_status : Option (List String))
    (m : Nat) (snaps snaps2 : String → List FullStatus) :
    (m < apps.length →
      wait_until_desired_status model apps units status agent_status
          (some m) snaps =
        { result := .invalidQueue
            "Queue size should be at least the number of applications"
          spawned := 0, final := [], queueItems := []
          queueOverflow := false } ∧
      wait_until_desired_status model apps units status agent_status
          (some m) snaps =
        wait_until_desired_status model apps units status agent_status
          (some m) snaps2) ∧
    (apps.length ≤ m →
      (wait_until_desired_status model apps units status agent_status
        (some m) snaps).queueOverflow = false) := by
  constructor
  · intro hlt
    have hg : queueGuard (some m) apps = true := by
      simp [queueGuard, hlt]
    constructor <;> simp [wait_until_desired_status, hg]
  · intro hle
    have hg : queueGuard (some m) apps = false := by
      simp [queueGuard]
      omega
    rw [wait_result_of_guard_false model apps units status agent_status
      (some m) snaps hg]
    simp only [queuePut]
    have hlen : (satisfiedOf (taskEndsOf apps units (status.getD
        ["active"]) agent_status snaps)).length ≤ m := by
      calc (satisfiedOf (taskEndsOf apps units (status.getD ["active"])
              agent_status snaps)).length
          ≤ (taskEndsOf apps units (status.getD ["active"]) agent_status
              snaps).length := List.length_filterMap_le _ _
        _ = apps.length := List.length_map _ _
        _ ≤ m := hle
    cases hput : putAll m []
        (satisfiedOf (taskEndsOf apps units (status.getD ["active"])
          agent_status snaps)) with
    | none =>
      exact absurd hput (putAll_ne_none m _ _ (by simpa using hlen))
    | some q => simp [hput]

/-- Concrete instances of C6: a capacity-0 queue with two applications is
rejected up front, identically for two different snapshot sources; a
capacity-2 queue with two applications never overflows. -/
theorem C6_queue_capacity_precondition_witness :
    (wait_until_desired_status "m1" ["a", "b"] none none none (some 0)
        (fun _ => []) =
      { result := .invalidQueue
          "Queue size should be at least the number of applications"
        spawned := 0, final := [], queueItems := []
        queueOverflow := false } ∧
      wait_until_desired_status "m1" ["a", "b"] none none none (some 0)
          (fun _ => []) =
        wait_until_desired_status "m1" ["a", "b"] none none none (some 0)
          fun _ => [⟨[]⟩]) ∧
    (wait_until_desired_status "m1" ["a", "b"] none none none (some 2)
      fun _ => []).queueOverflow = false :=
  ⟨(C6_queue_capacity_precondition "m1" ["a", "b"] none none none 0
      (fun _ => []) fun _ => [⟨[]⟩]).1 (by decide),
    (C6_queue_capacity_precondition "m1" ["a", "b"] none none none 2
      (fun _ => []) fun _ => [⟨[]⟩]).2 (by decide)⟩

/-- C9: the unit subset attributed to application `app` is exactly the
listed unit names containing `app` as a substring anywhere — not as a
unit-owner prefix. In particular a listed unit `nova-compute/0` is also
attributed to a watched application `nova`. -/
theorem C9_unit_attribution_is_substring (units : List String)
    (app u : String) :
    (∃ l, unitListFor (some units) app = some l ∧
      (u ∈ l ↔ u ∈ units ∧ app.data <:+: u.data)) ∧
    unitListFor (some ["nova-compute/0", "mysql/0"]) "nova" =
      some ["nova-compute/0"] := by
  refine ⟨⟨units.filter fun x => pyIn app x, rfl, ?_⟩, by decide⟩
  rw [List.mem_filter]
  simp [pyIn]

lemma selectedUnits_empty_subset (application : ApplicationStatus) :
    selectedUnits application (some []) = [] := by
  simp [selectedUnits]

lemma waitStatusCheck_empty_subset (application : ApplicationStatus)
    (hsub : application.subordinate_to = [])
    (expected_status : List String)
    (expected_agent_status : Option (List String)) :
    waitStatusCheck application (some []) expected_status
      expected_agent_status = false := by
  unfold waitStatusCheck
  simp [hsub, observedWorkloadStatuses, selectedUnits_empty_subset]

lemma watchTask_empty_subset_running (app : String)
    (expected_status : List String)
    (expected_agent_status : Option (List String))
    (snapsList : List FullStatus)
    (hpresent : ∀ s ∈ snapsList, ∃ application,
      s.applications.lookup app = some application ∧
      application.subordinate_to = []) :
    watchTask app (some []) expected_status expected_agent_status
      snapsList = .running := by
  induction snapsList with
  | nil => rfl
  | cons s rest ih =>
    obtain ⟨application, hlook, hsub⟩ := hpresent s (by simp)
    simp only [watchTask, hlook,
      waitStatusCheck_empty_subset application hsub expected_status
        expected_agent_status,
      Bool.false_eq_true, if_false]
    exact ih fun s2 hs2 => hpresent s2 (by simp [hs2])

/-- C10: when a unit list is supplied and no listed unit name contains a
watched non-subordinate application (present in every observed snapshot),
that application's unit subset is empty, its watch task can never be
satisfied — it is still running whenever the budget ends — and the whole
call ends with the `TimeoutException` rather than succeeding or failing
fast. -/
theorem C10_empty_unit_subset_times_out (model : String)
    (apps : List String) (status agent_status : Option (List String))
    (qm : Option Nat) (snaps : String → List FullStatus) (app : String)
    (us : List String)
    (hq : queueGuard qm apps = false)
    (happ : app ∈ apps)
    (hnomatch : ∀ u ∈ us, pyIn app u = false)
    (hpresent : ∀ s ∈ snaps app, ∃ application,
      s.applications.lookup app = some application ∧
      application.subordinate_to = []) :
    unitListFor (some us) app = some [] ∧
    watchTask app (unitListFor (some us) app) (status.getD ["active"])
      agent_status (snaps app) = .running ∧
    (wait_until_desired_status model apps (some us) status agent_status
      qm snaps).result = .timeoutExc (timeoutMsg model) := by
  have hempty : unitListFor (some us) app = some [] := by
    simp only [unitListFor, Option.map_some', Option.some.injEq]
    rw [List.filter_eq_nil_iff]
    intro u hu
    simp [hnomatch u hu]
  have hrun : watchTask app (unitListFor (some us) app)
      (status.getD ["active"]) agent_status (snaps app) = .running := by
    rw [hempty]
    exact watchTask_empty_subset_running app (status.getD ["active"])
      agent_status (snaps app) hpresent
  refine ⟨hempty, hrun, ?_⟩
  rw [wait_result_of_guard_false model apps (some us) status agent_status
    qm snaps hq]
  have hany : anyRunning (taskEndsOf apps (some us)
      (status.getD ["active"]) agent_status snaps) = true :=
    (anyRunning_taskEndsOf_iff apps (some us) (status.getD ["active"])
      agent_status snaps).mpr ⟨app, happ, hrun⟩
  simp [waitOutcomeOf, hany]

/-- Concrete instance of C10: `nova` is watched with a unit list naming
only `other/0`; its subset is empty and the call times out although the
application is present and active. -/
theorem C10_empty_unit_subset_times_out_witness :
    unitListFor (some ["other/0"]) "nova" = some [] ∧
    watchTask "nova" (unitListFor (some ["other/0"]) "nova") ["active"]
      none [⟨[("nova", c10App)]⟩] = .running ∧
    (wait_until_desired_status "m1" ["nova"] (some ["other/0"]) none none
      none fun _ => [⟨[("nova", c10App)]⟩]).result =
      .timeoutExc (timeoutMsg "m1") := by
  exact C10_empty_unit_subset_times_out "m1" ["nova"] none none none
    (fun _ => [⟨[("nova", c10App)]⟩]) "nova" ["other/0"] rfl (by decide)
    (by decide)
    (fun s hs => by
      rw [List.mem_singleton] at hs
      subst hs
      exact ⟨c10App, by decide, rfl⟩)

/-- C7: every connection-closed failure during a status fetch is absorbed
by the retry loop — given any run of connection-closed attempts followed
by a success, the consumer receives exactly that one snapshot and the
fetch was attempted once per failure plus once for the success; no error
reaches the consumer. In particular one failure then success means one
snapshot delivered and two fetch attempts. -/
theorem C7_connection_closed_retried (errs : List FetchAttempt)
    (s : FullStatus) (rest : List FetchAttempt)
    (herr : ∀ e ∈ errs, ∃ m, e = .connectionClosed m) :
    tick_status_first (errs ++ .ok s :: rest) =
      some (s, errs.length + 1) := by
  induction errs with
  | nil => rfl
  | cons e es ih =>
    obtain ⟨m, rfl⟩ := herr e (by simp)
    rw [List.cons_append]
    simp only [tick_status_first,
      ih fun e2 he2 => herr e2 (by simp [he2])]
    simp [Option.map_some']

/-- Concrete instance of C7: a fetch fails once with a connection-closed
error and then succeeds; the consumer receives exactly that snapshot and
the fetch was attempted twice. -/
theorem C7_connection_closed_retried_witness :
    tick_status_first
        [.connectionClosed "Test error", .ok (⟨[]⟩ : FullStatus)] =
      some ((⟨[]⟩ : FullStatus), 2) := by
  exact C7_connection_closed_retried [.connectionClosed "Test error"]
    ⟨[]⟩ []
    (fun e he => by
      rw [List.mem_singleton] at he
      exact ⟨"Test error", he⟩)

lemma updater_reachable_inv (n : Nat) (s : UpdaterState)
    (h : Relation.ReflTransGen UpdaterStep (initUpdater n) s) :
    (s.delivered = 0 ∧ s.waiting = n ∧
      ((s.fetching = false ∧ s.fetches = 0) ∨
        (s.fetching = true ∧ s.fetches = 1))) ∨
    (s.delivered = n ∧ s.waiting = 0 ∧ 1 ≤ s.fetches) := by
  induction h with
  | refl => exact Or.inl ⟨rfl, rfl, Or.inl ⟨rfl, rfl⟩⟩
  | tail hab hbc ih =>
    cases hbc with
    | startFetch w d f =>
      dsimp only at ih ⊢
      rcases ih with ⟨h1, h2, ⟨-, h4⟩ | ⟨h3, -⟩⟩ | ⟨h1, h2, h3⟩
      · exact Or.inl ⟨h1, h2, Or.inr ⟨rfl, by omega⟩⟩
      · exact absurd h3 (by simp)
      · exact Or.inr ⟨h1, h2, by omega⟩
    | completeFetch w d f =>
      dsimp only at ih ⊢
      rcases ih with ⟨h1, h2, ⟨h3, -⟩ | ⟨-, h4⟩⟩ | ⟨h1, h2, h3⟩
      · exact absurd h3 (by simp)
      · exact Or.inr ⟨by omega, rfl, by omega⟩
      · exact Or.inr ⟨by omega, rfl, h3⟩

/-- C8: in the spec-modelled updater, starting from `n` consumers blocked
on the condition variable with no fetch outstanding, at the first
transition in which any consumer receives a snapshot, all `n` consumers
are released together and exactly one underlying fetch has been issued —
never `n` redundant fetches for `n` concurrent consumers. -/
theorem C8_single_fetch_fan_out (n : Nat) (s s2 : UpdaterState)
    (hreach : Relation.ReflTransGen UpdaterStep (initUpdater n) s)
    (hs : s.delivered = 0) (hstep : UpdaterStep s s2)
    (hdeliv : 0 < s2.delivered) :
    s2.delivered = n ∧ s2.waiting = 0 ∧ s2.fetches = 1 := by
  have hinv := updater_reachable_inv n s hreach
  cases hstep with
  | startFetch w d f =>
    dsimp only at hs hdeliv
    omega
  | completeFetch w d f =>
    dsimp only at hs hdeliv hinv ⊢
    rcases hinv with ⟨h1, h2, ⟨h3, -⟩ | ⟨-, h4⟩⟩ | ⟨h1, h2, h3⟩
    · exact absurd h3 (by simp)
    · omega
    · omega

/-- Concrete instance of C8: two consumers, one fetch started and
completed; both are released together after exactly one fetch. -/
theorem C8_single_fetch_fan_out_witness :
    (⟨0, false, 2, 1⟩ : UpdaterState).delivered = 2 ∧
    (⟨0, false, 2, 1⟩ : UpdaterState).waiting = 0 ∧
    (⟨0, false, 2, 1⟩ : UpdaterState).fetches = 1 :=
  C8_single_fetch_fan_out 2 ⟨2, true, 0, 1⟩ ⟨0, false, 2, 1⟩
    (Relation.ReflTransGen.single (UpdaterStep.startFetch 2 0 0)) rfl
    (UpdaterStep.completeFetch 2 0 1) (by decide)

end Sunbeam
